import Mathlib

/-!
Shallow embedding of the Lixtricks simulation core (src/unnamed/part_001,
the complete variant at lines 573-1190: global state, collision utilities,
enemy spawning, GameInit, GameUpdate, and the derived score of GameDraw).

Modelling conventions:
* `float` values are embedded as exact rationals `ℚ`; machine rounding is
  outside the scope of the claims, which concern control flow and exact
  guard/clamp structure.
* Comparisons of `Vector3Length v` (a square root) against a non-negative
  bound `r` are embedded as the exactly equivalent squared comparisons
  `|v|² vs r²`; the square-root value itself is only needed by the enemy
  pursuit direction, where it is supplied by the input oracle `sqrtA`.
* Trigonometry (the yaw/pitch basis vectors) and the RNG are supplied per
  frame through the `Input` record (`forward`, `left`, `rand`), exactly as
  the host environment supplies key states and the frame delta time.
* Render-only data (platform colour, the Camera3D record) is omitted.
-/

namespace Lix

/-- raymath `Vector3`, components embedded as rationals. -/
structure Vector3 where
  x : ℚ
  y : ℚ
  z : ℚ
deriving Repr, DecidableEq

/-- `struct Platform` (colour omitted, render-only). Lines 44-48 / 596-601. -/
structure Platform where
  position : Vector3
  size : Vector3
deriving Repr, DecidableEq

/-- `struct Projectile`, lines 50-55. -/
structure Projectile where
  position : Vector3
  velocity : Vector3
  radius : ℚ
  lifetime : ℚ
deriving Repr, DecidableEq

/-- `struct Enemy` of the complete variant: spawned at lines 773-779 with
fields position, size, health, flashTimer, damageCooldown. -/
structure Enemy where
  position : Vector3
  size : Vector3
  health : Int
  flashTimer : ℚ
  damageCooldown : ℚ
deriving Repr, DecidableEq

/-- `struct Player` of the complete variant, initializer at lines 607-633. -/
structure Player where
  position : Vector3
  speed : ℚ
  walkSpeed : ℚ
  runSpeed : ℚ
  slideSpeed : ℚ
  crouchSpeed : ℚ
  slideDuration : ℚ
  slideTimer : ℚ
  isSliding : Bool
  sprintTimer : ℚ
  sprintExhausted : Bool
  prevCrouching : Bool
  airborneSpeed : ℚ
  jumpCount : Int
  wasOnGround : Bool
  slideQueued : Bool
  cameraYaw : ℚ
  cameraPitch : ℚ
  radius : ℚ
  velocityY : ℚ
  health : Int
  enemiesDefeated : Int
  shotsFired : Int
  shotsHit : Int
  survivalTime : ℚ
deriving Repr, DecidableEq

/-- `struct World` (camera omitted, render-only), lines 64-70 / 596-605. -/
structure World where
  platforms : List Platform
  projectiles : List Projectile
  enemies : List Enemy
  enemySpawnTimer : ℚ
deriving Repr, DecidableEq

/-- The global session: `player`, `world` and the `isGameOver` flag
(line 635). -/
structure GameState where
  player : Player
  world : World
  isGameOver : Bool
deriving Repr, DecidableEq

/-- Per-frame host environment data consumed by `GameUpdate`: frame delta
time, key/mouse state and the oracles for trigonometry (`forward`, `left`,
`pitchLimit`), the RNG (`rand`) and the square root used by the enemy
pursuit direction (`sqrtA`). `spacePressed` backs both the jump input and
the game-over restart input (both read `IsKeyPressed(KEY_SPACE)`). -/
structure Input where
  dt : ℚ
  mouseDX : ℚ
  mouseDY : ℚ
  pitchLimit : ℚ
  forward : Vector3
  left : Vector3
  keyW : Bool
  keyS : Bool
  keyD : Bool
  keyA : Bool
  running : Bool
  crouching : Bool
  spacePressed : Bool
  firePressed : Bool
  rand : ℚ → ℚ → ℚ
  sqrtA : ℚ → ℚ

-- Constants, lines 583-594 and the locals of GameUpdate (lines 1060-1062).

def gravity : ℚ := 981/100
def jumpVelocity : ℚ := 5
def maxSprintTime : ℚ := 10
def maxJumpCount : Int := 2
def projectileSpeed : ℚ := 100
def projectileRadius : ℚ := 1/100
def projectileLifetime : ℚ := 2
def enemyFlashDuration : ℚ := 1/10
def enemyRadius : ℚ := 1/2
def enemySpawnInterval : ℚ := 2
def enemyMaxCount : Nat := 10
def enemySpeed : ℚ := 5/2
def damageInterval : ℚ := 2
def damageAmount : Int := 25
def sensitivity : ℚ := 3/1000
def groundTolerance : ℚ := 1/20
def sweptEps : ℚ := 1/100000000
def spawnOffset : ℚ := 3/5

/-- `std::clamp(v, lo, hi)`. -/
def clampQ (v lo hi : ℚ) : ℚ := min hi (max lo v)

/-- `GetPlatformTopY`, line 640. -/
def GetPlatformTopY (p : Platform) : ℚ := p.position.y + p.size.y * (1/2)

/-- `SphereVsAABB`, lines 644-666: closest-point test of a sphere against
an axis-aligned box. -/
def SphereVsAABB (spherePos : Vector3) (r : ℚ) (boxPos boxSize : Vector3) : Bool :=
  let hx := boxSize.x * (1/2)
  let hy := boxSize.y * (1/2)
  let hz := boxSize.z * (1/2)
  let cx := clampQ spherePos.x (boxPos.x - hx) (boxPos.x + hx)
  let cy := clampQ spherePos.y (boxPos.y - hy) (boxPos.y + hy)
  let cz := clampQ spherePos.z (boxPos.z - hz) (boxPos.z + hz)
  let dx := spherePos.x - cx
  let dy := spherePos.y - cy
  let dz := spherePos.z - cz
  decide (dx * dx + dy * dy + dz * dz ≤ r * r)

/-- The six expanded bounds of `GetExpandedPlatformBounds`, lines 668-678. -/
structure Bounds where
  minX : ℚ
  maxX : ℚ
  minY : ℚ
  maxY : ℚ
  minZ : ℚ
  maxZ : ℚ
deriving Repr, DecidableEq

/-- `GetExpandedPlatformBounds`, lines 668-678 (the margin is the player's
radius, passed explicitly here instead of read from the global). -/
def GetExpandedPlatformBounds (radius : ℚ) (p : Platform) : Bounds :=
  { minX := p.position.x - (p.size.x * (1/2) + radius)
    maxX := p.position.x + (p.size.x * (1/2) + radius)
    minY := p.position.y - (p.size.y * (1/2) + radius)
    maxY := p.position.y + (p.size.y * (1/2) + radius)
    minZ := p.position.z - (p.size.z * (1/2) + radius)
    maxZ := p.position.z + (p.size.z * (1/2) + radius) }

/-- `isCollidingPlatform`, lines 680-691: strict interior of any expanded
platform bound. -/
def isCollidingPlatform (platforms : List Platform) (radius : ℚ) (pos : Vector3) : Bool :=
  platforms.any fun p =>
    let b := GetExpandedPlatformBounds radius p
    decide (b.minX < pos.x ∧ pos.x < b.maxX ∧ b.minY < pos.y ∧ pos.y < b.maxY ∧
            b.minZ < pos.z ∧ pos.z < b.maxZ)

/-- `isOnPlatform`, lines 693-708: rest height `topY + radius` for the first
platform whose expanded horizontal bounds contain the point and whose top
surface is within the symmetric tolerance band of the feet height;
`-1` when none qualifies. -/
def isOnPlatform (platforms : List Platform) (radius : ℚ) (pos : Vector3) : ℚ :=
  match platforms with
  | [] => -1
  | p :: rest =>
    let b := GetExpandedPlatformBounds radius p
    if b.minX < pos.x ∧ pos.x < b.maxX ∧ b.minZ < pos.z ∧ pos.z < b.maxZ then
      let topY := GetPlatformTopY p
      let feetY := pos.y - radius
      if topY - groundTolerance ≤ feetY ∧ feetY ≤ topY + groundTolerance then
        topY + radius
      else isOnPlatform rest radius pos
    else isOnPlatform rest radius pos

/-- `EnemyCollidesPlatform`, lines 713-722: sphere test against every
platform except the first (the floor never blocks enemies). -/
def EnemyCollidesPlatform (platforms : List Platform) (pos : Vector3) (radius : ℚ) : Bool :=
  (platforms.drop 1).any fun p => SphereVsAABB pos radius p.position p.size

/-- One axis of the slab loop of `SweptSphereVsAABB`, lines 736-750:
`none` models the early `return false`. -/
def slabAxis (s d mn mx : ℚ) : Option (ℚ × ℚ) → Option (ℚ × ℚ)
  | none => none
  | some (tmin, tmax) =>
    if |d| < sweptEps then
      if s < mn ∨ mx < s then none else some (tmin, tmax)
    else
      let ood := 1 / d
      let t1 := (mn - s) * ood
      let t2 := (mx - s) * ood
      let tlo := if t2 < t1 then t2 else t1
      let thi := if t2 < t1 then t1 else t2
      let tmin2 := max tmin tlo
      let tmax2 := min tmax thi
      if tmax2 < tmin2 then none else some (tmin2, tmax2)

/-- `SweptSphereVsAABB`, lines 724-752: slab method along the segment from
`start` to `lineEnd` against the box inflated by `radius` on each axis. -/
def SweptSphereVsAABB (start lineEnd : Vector3) (radius : ℚ) (boxPos boxSize : Vector3) : Bool :=
  let hx := boxSize.x * (1/2) + radius
  let hy := boxSize.y * (1/2) + radius
  let hz := boxSize.z * (1/2) + radius
  let dirX := lineEnd.x - start.x
  let dirY := lineEnd.y - start.y
  let dirZ := lineEnd.z - start.z
  (slabAxis start.z dirZ (boxPos.z - hz) (boxPos.z + hz)
    (slabAxis start.y dirY (boxPos.y - hy) (boxPos.y + hy)
      (slabAxis start.x dirX (boxPos.x - hx) (boxPos.x + hx)
        (some (0, 1))))).isSome

/-- One axis of the specification's description of the slab method
(spec §4.1): a degenerate axis contributes only the start-in-slab guard,
any other axis intersects its entry/exit interval into the running
interval; no early exit, the interval is inspected after all axes. -/
def specAxis (s d mn mx : ℚ) (st : Bool × ℚ × ℚ) : Bool × ℚ × ℚ :=
  if |d| < sweptEps then
    (st.1 && decide (mn ≤ s ∧ s ≤ mx), st.2.1, st.2.2)
  else
    (st.1,
     max st.2.1 (min ((mn - s) / d) ((mx - s) / d)),
     min st.2.2 (max ((mn - s) / d) ((mx - s) / d)))

/-- The swept test as the specification words it: intersect the per-axis
intervals with a running interval initialized to `[0,1]` and report a
collision iff the interval is non-empty after all three axes (degenerate
axes contributing their start-in-slab guard). -/
def SweptSphereSpec (start lineEnd : Vector3) (radius : ℚ) (boxPos boxSize : Vector3) : Bool :=
  let hx := boxSize.x * (1/2) + radius
  let hy := boxSize.y * (1/2) + radius
  let hz := boxSize.z * (1/2) + radius
  let st := specAxis start.z (lineEnd.z - start.z) (boxPos.z - hz) (boxPos.z + hz)
    (specAxis start.y (lineEnd.y - start.y) (boxPos.y - hy) (boxPos.y + hy)
      (specAxis start.x (lineEnd.x - start.x) (boxPos.x - hx) (boxPos.x + hx)
        (true, 0, 1)))
  st.1 && decide (st.2.1 ≤ st.2.2)

/-- Simulation relation between the early-exit slab state (`none` = already
returned false) and the specification's running state (flag plus interval
inspected at the end). -/
def slabInv (o : Option (ℚ × ℚ)) (st : Bool × ℚ × ℚ) : Prop :=
  (∃ a b, o = some (a, b) ∧ st = (true, a, b) ∧ a ≤ b) ∨
  (o = none ∧ ¬(st.1 = true ∧ st.2.1 ≤ st.2.2))

/-- The `tryMove` closure of `GameUpdate`, lines 882-905: commit the full
horizontal candidate when collision-free, otherwise try the X-only and then
the Z-only displacement (the Z attempt on top of an accepted X result). -/
def tryMove (platforms : List Platform) (radius : ℚ) (nextPos dir : Vector3) (scale : ℚ) : Vector3 :=
  let dx := dir.x * scale
  let dz := dir.z * scale
  let candidate : Vector3 := ⟨nextPos.x + dx, nextPos.y, nextPos.z + dz⟩
  if isCollidingPlatform platforms radius candidate then
    let p1 := if isCollidingPlatform platforms radius ⟨nextPos.x + dx, nextPos.y, nextPos.z⟩
              then nextPos else { nextPos with x := nextPos.x + dx }
    if isCollidingPlatform platforms radius ⟨p1.x, p1.y, p1.z + dz⟩
    then p1 else { p1 with z := p1.z + dz }
  else candidate

/-- The four directional `tryMove` applications, lines 907-910. -/
def moveHorizontal (platforms : List Platform) (radius : ℚ) (pos : Vector3)
    (inp : Input) (scale : ℚ) : Vector3 :=
  let p1 := if inp.keyW then tryMove platforms radius pos inp.forward scale else pos
  let p2 := if inp.keyS then tryMove platforms radius p1 inp.forward (-scale) else p1
  let p3 := if inp.keyD then tryMove platforms radius p2 inp.left (-scale) else p2
  if inp.keyA then tryMove platforms radius p3 inp.left scale else p3

/-- The grounded speed selection, lines 921-930: sliding, then running
(run held, crouch not held, sprint not exhausted), then crouching, then
walking. -/
def selectSpeed (p : Player) (running crouching : Bool) : ℚ :=
  if p.isSliding then p.slideSpeed
  else if running && !crouching && !p.sprintExhausted then p.runSpeed
  else if crouching then p.crouchSpeed
  else p.walkSpeed

/-- The jump acceptance block, lines 943-946: returns the (velocityY,
jumpCount) pair after the conditional jump. -/
def jumpStep (pressed onGround : Bool) (jumpCount : Int) (velocityY : ℚ) : ℚ × Int :=
  if pressed && (onGround || decide (jumpCount < maxJumpCount)) then
    (jumpVelocity, jumpCount + 1)
  else (velocityY, jumpCount)

/-- The slide start/update/queue block, lines 955-972: result is
(isSliding, slideQueued, slideTimer) after the frame. -/
def slideStep (running crouching prevCrouching onGround isSliding slideQueued : Bool)
    (slideTimer slideDuration dt : ℚ) : Bool × Bool × ℚ :=
  let crouchPressed := crouching && !prevCrouching
  let start := running && crouchPressed && !isSliding && onGround && !slideQueued
  let s1 := isSliding || start
  let q1 := slideQueued || start
  let t1 := if start then slideDuration else slideTimer
  let t2 := if s1 then t1 - dt else t1
  let s2 := if s1 && decide (t2 ≤ 0) then false else s1
  let q2 := if !crouching then false else q1
  (s2, q2, t2)

/-- The sprint resource block, lines 974-985: result is (sprintTimer,
sprintExhausted) after the frame. -/
def sprintStep (running : Bool) (dt sprintTimer : ℚ) (exhausted : Bool) : ℚ × Bool :=
  if running && !exhausted then
    if maxSprintTime ≤ sprintTimer + dt then (maxSprintTime, true)
    else (sprintTimer + dt, exhausted)
  else
    let t1 := sprintTimer - dt * 2
    let t2 := if t1 < 0 then 0 else t1
    (t2, if t2 ≤ 0 then false else exhausted)

/-- The enemy flash timer decay, lines 1007-1010. -/
def flashStep (dt : ℚ) (e : Enemy) : Enemy :=
  let t := e.flashTimer - dt
  { e with flashTimer := if t < 0 then 0 else t }

/-- The per-projectile enemy loop, lines 1031-1039: first swept hit damages
that one enemy, sets its flash timer and stops; result is (enemies, hit?). -/
def enemyHitScan (prev pos2 : Vector3) (r : ℚ) : List Enemy → List Enemy × Bool
  | [] => ([], false)
  | e :: es =>
    if SweptSphereVsAABB prev pos2 r e.position e.size then
      ({ e with health := e.health - 25, flashTimer := enemyFlashDuration } :: es, true)
    else
      let rest := enemyHitScan prev pos2 r es
      (e :: rest.1, rest.2)

/-- One iteration of the projectile loop, lines 1013-1040: skip dead
projectiles, integrate and decrement lifetime, then swept platform test
(all platforms before any enemy), then the enemy scan; the third component
is the shots-hit increment contributed by this projectile. -/
def projectileStep (platforms : List Platform) (dt : ℚ) (p : Projectile)
    (es : List Enemy) : Projectile × List Enemy × Int :=
  if p.lifetime ≤ 0 then (p, es, 0)
  else
    let prev := p.position
    let pos2 : Vector3 := ⟨prev.x + p.velocity.x * dt, prev.y + p.velocity.y * dt,
                           prev.z + p.velocity.z * dt⟩
    let life := p.lifetime - dt
    if life ≤ 0 then ({ p with position := pos2, lifetime := life }, es, 0)
    else if platforms.any fun plat =>
        SweptSphereVsAABB prev pos2 p.radius plat.position plat.size then
      ({ p with position := pos2, lifetime := 0 }, es, 0)
    else
      let scan := enemyHitScan prev pos2 p.radius es
      ({ p with position := pos2, lifetime := if scan.2 then 0 else life },
       scan.1, if scan.2 then 1 else 0)

/-- The whole projectile pass: each projectile steps against the enemy list
left by its predecessors; result is (projectiles, enemies, shots-hit). -/
def projectilesUpdate (platforms : List Platform) (dt : ℚ) :
    List Projectile → List Enemy → List Projectile × List Enemy × Int
  | [], es => ([], es, 0)
  | p :: ps, es =>
    let r1 := projectileStep platforms dt p es
    let r2 := projectilesUpdate platforms dt ps r1.2.1
    (r1.1 :: r2.1, r2.2.1, r1.2.2 + r2.2.2)

/-- `spawnEnemy`, lines 763-780: at most `enemyMaxCount` live enemies; the
new enemy rests on the floor (first platform) at an RNG horizontal position
inset by the enemy radius. -/
def spawnEnemy (rand : ℚ → ℚ → ℚ) (platforms : List Platform)
    (enemies : List Enemy) : List Enemy :=
  if enemyMaxCount ≤ enemies.length then enemies
  else
    match platforms with
    | [] => enemies
    | floor :: _ =>
      let minX := floor.position.x - floor.size.x * (1/2) + enemyRadius
      let maxX := floor.position.x + floor.size.x * (1/2) - enemyRadius
      let minZ := floor.position.z - floor.size.z * (1/2) + enemyRadius
      let maxZ := floor.position.z + floor.size.z * (1/2) - enemyRadius
      let y := GetPlatformTopY floor + enemyRadius
      enemies ++ [{ position := ⟨rand minX maxX, y, rand minZ maxZ⟩,
                    size := ⟨1, 2, 1⟩, health := 100, flashTimer := 0,
                    damageCooldown := 0 }]

/-- The enemy pursuit step, lines 1066-1083: horizontal vector to the
player; the `dist > 0.01` guard is the exact squared comparison, the
normalized direction uses the square-root oracle; the step commits only if
the candidate hits no non-floor platform. -/
def enemyMovePhase (platforms : List Platform) (playerPos : Vector3) (dt : ℚ)
    (sqrtA : ℚ → ℚ) (e : Enemy) : Enemy :=
  let tx := playerPos.x - e.position.x
  let tz := playerPos.z - e.position.z
  let distSq := tx * tx + tz * tz
  if decide ((1/100 : ℚ) * (1/100) < distSq) then
    let dist := sqrtA distSq
    let candX := e.position.x + tx * (1 / dist) * enemySpeed * dt
    let candZ := e.position.z + tz * (1 / dist) * enemySpeed * dt
    if EnemyCollidesPlatform platforms ⟨candX, e.position.y, candZ⟩ (e.size.x * (1/2)) then e
    else { e with position := ⟨candX, e.position.y, candZ⟩ }
  else e

/-- The cooldown/damage block, lines 1085-1103: decrement a positive
cooldown, then if the 3D player distance is below `playerRadius + size.x/2`
(exact squared comparison) and the cooldown has expired, subtract
`damageAmount` from the player's health clamped at zero and reset the
cooldown to `damageInterval`. Result: (enemy, health, damage event?). -/
def enemyDamagePhase (playerPos : Vector3) (playerRadius dt : ℚ) (e : Enemy)
    (health : Int) : Enemy × Int × Bool :=
  let e2 := if 0 < e.damageCooldown then { e with damageCooldown := e.damageCooldown - dt } else e
  let combined := playerRadius + e.size.x * (1/2)
  let dx := playerPos.x - e2.position.x
  let dy := playerPos.y - e2.position.y
  let dz := playerPos.z - e2.position.z
  if decide (dx * dx + dy * dy + dz * dz < combined * combined) then
    if e2.damageCooldown ≤ 0 then
      let h2 := health - damageAmount
      ({ e2 with damageCooldown := damageInterval }, (if h2 < 0 then 0 else h2, true))
    else (e2, (health, false))
  else (e2, (health, false))

/-- One enemy of the AI loop, lines 1064-1104: pursuit then cooldown/damage. -/
def enemyAIStep (platforms : List Platform) (playerPos : Vector3)
    (playerRadius dt : ℚ) (sqrtA : ℚ → ℚ) (e : Enemy) (health : Int) : Enemy × Int :=
  let r := enemyDamagePhase playerPos playerRadius dt
    (enemyMovePhase platforms playerPos dt sqrtA e) health
  (r.1, r.2.1)

/-- The AI loop over all enemies, threading the player's health. -/
def enemiesAI (platforms : List Platform) (playerPos : Vector3)
    (playerRadius dt : ℚ) (sqrtA : ℚ → ℚ) :
    List Enemy → Int → List Enemy × Int
  | [], h => ([], h)
  | e :: es, h =>
    let r1 := enemyAIStep platforms playerPos playerRadius dt sqrtA e h
    let r2 := enemiesAI platforms playerPos playerRadius dt sqrtA es r1.2
    (r1.1 :: r2.1, r2.2)

/-- Damage events of one enemy across a list of frames, each frame given as
(player position, enemy position after pursuit, delta time); the cooldown
and the player health are threaded through `enemyDamagePhase`. -/
def damageTrace (playerRadius : ℚ) (sz : Vector3) :
    ℚ → Int → List (Vector3 × Vector3 × ℚ) → List Bool
  | _, _, [] => []
  | cd, h, step :: rest =>
    let r := enemyDamagePhase step.1 playerRadius step.2.2
      ⟨step.2.1, sz, 100, 0, cd⟩ h
    r.2.2 :: damageTrace playerRadius sz r.1.damageCooldown r.2.1 rest

/-- Total delta time of a list of frames. -/
def dtSum (tr : List (Vector3 × Vector3 × ℚ)) : ℚ :=
  tr.foldr (fun s a => s.2.2 + a) 0

/-- `GameInit`, lines 785-822, restricted to the simulation state (window
and camera setup omitted): place the player on the floor, reset yaw/pitch
(the initial forward is (0,0,1), so `atan2f 0 1 = 0` and `asinf 0 = 0`),
clear enemies and projectiles, reset the spawn timer, health, the
shot/defeat counters, the survival time and the game-over flag. Every
other player field (speeds, slide/sprint/jump state, velocityY, flags) is
not touched by `GameInit`. -/
def applyGameInit (gs : GameState) : GameState :=
  let p0 := gs.player
  let p1 :=
    (match gs.world.platforms with
     | [] => p0
     | floor :: _ =>
       { p0 with position := ⟨floor.position.x, GetPlatformTopY floor + p0.radius,
                              floor.position.z⟩ })
  { player := { p1 with
      cameraYaw := 0
      cameraPitch := 0
      health := 100
      enemiesDefeated := 0
      shotsFired := 0
      shotsHit := 0
      survivalTime := 0 }
    world := { platforms := gs.world.platforms
               projectiles := []
               enemies := []
               enemySpawnTimer := 0 }
    isGameOver := false }

-- Frame-level pipeline of the active branch of `GameUpdate` (lines
-- 839-1116), split into named stages. Platforms are immutable during a
-- frame, so every stage reads `gs.world.platforms`.

/-- Horizontal movement result (lines 874-910): the four `tryMove`
applications at the frame speed `player.speed * dt` (selected last frame). -/
def frameNextPosH (gs : GameState) (inp : Input) : Vector3 :=
  moveHorizontal gs.world.platforms gs.player.radius gs.player.position inp
    (gs.player.speed * inp.dt)

/-- Ground height query on the moved position (line 913). -/
def framePlatformY (gs : GameState) (inp : Input) : ℚ :=
  isOnPlatform gs.world.platforms gs.player.radius (frameNextPosH gs inp)

/-- `onGround` (line 914): the ground query returned a height `≥ 0`. -/
def frameOnGround (gs : GameState) (inp : Input) : Bool :=
  decide (0 ≤ framePlatformY gs inp)

/-- Jump counter after the landing reset (lines 916-918): zero exactly on a
grounded frame following an airborne frame. -/
def jumpLandReset (gs : GameState) (inp : Input) : Int :=
  if frameOnGround gs inp && !gs.player.wasOnGround then 0 else gs.player.jumpCount

/-- The jump guard (line 943) evaluated on this frame's data: space pressed
and (grounded, or the post-reset counter below the double-jump budget). -/
def jumpAccepted (gs : GameState) (inp : Input) : Bool :=
  inp.spacePressed && (frameOnGround gs inp ||
    decide (jumpLandReset gs inp < maxJumpCount))

/-- Ground snap guard (line 937): grounded and descending. -/
def frameSnap (gs : GameState) (inp : Input) : Bool :=
  frameOnGround gs inp && decide (gs.player.velocityY < 0)

/-- (velocityY, jumpCount) after snap and jump (lines 937-946). -/
def frameJump (gs : GameState) (inp : Input) : ℚ × Int :=
  jumpStep inp.spacePressed (frameOnGround gs inp) (jumpLandReset gs inp)
    (if frameSnap gs inp then 0 else gs.player.velocityY)

/-- velocityY after gravity (lines 949-950). -/
def frameVelocityY (gs : GameState) (inp : Input) : ℚ :=
  if frameOnGround gs inp then (frameJump gs inp).1
  else (frameJump gs inp).1 - gravity * inp.dt

/-- Height after snap and vertical integration (lines 937-953). -/
def framePosY (gs : GameState) (inp : Input) : ℚ :=
  (if frameSnap gs inp then framePlatformY gs inp else (frameNextPosH gs inp).y) +
    frameVelocityY gs inp * inp.dt

/-- The committed player position of the frame (line 987). -/
def framePosition (gs : GameState) (inp : Input) : Vector3 :=
  ⟨(frameNextPosH gs inp).x, framePosY gs inp, (frameNextPosH gs inp).z⟩

/-- Speed after mode selection (lines 920-934). -/
def frameSpeed (gs : GameState) (inp : Input) : ℚ :=
  if frameOnGround gs inp then selectSpeed gs.player inp.running inp.crouching
  else gs.player.airborneSpeed

/-- Airborne speed snapshot after the frame (lines 931-933). -/
def frameAirborneSpeed (gs : GameState) (inp : Input) : ℚ :=
  if frameOnGround gs inp then frameSpeed gs inp else gs.player.airborneSpeed

/-- Slide state after the frame (lines 955-972). -/
def frameSlide (gs : GameState) (inp : Input) : Bool × Bool × ℚ :=
  slideStep inp.running inp.crouching gs.player.prevCrouching (frameOnGround gs inp)
    gs.player.isSliding gs.player.slideQueued gs.player.slideTimer
    gs.player.slideDuration inp.dt

/-- Sprint state after the frame (lines 974-985). -/
def frameSprint (gs : GameState) (inp : Input) : ℚ × Bool :=
  sprintStep inp.running inp.dt gs.player.sprintTimer gs.player.sprintExhausted

/-- The projectile fired this frame (lines 990-1004): spawned slightly
ahead of the committed position along the forward vector. -/
def fireProjectile (pos fwd : Vector3) : Projectile :=
  { position := ⟨pos.x + fwd.x * spawnOffset, pos.y + fwd.y * spawnOffset,
                 pos.z + fwd.z * spawnOffset⟩,
    velocity := ⟨fwd.x * projectileSpeed, fwd.y * projectileSpeed,
                 fwd.z * projectileSpeed⟩,
    radius := projectileRadius, lifetime := projectileLifetime }

/-- Projectile list entering the projectile pass (fire happens first). -/
def frameProjectilesIn (gs : GameState) (inp : Input) : List Projectile :=
  if inp.firePressed then
    gs.world.projectiles ++ [fireProjectile (framePosition gs inp) inp.forward]
  else gs.world.projectiles

/-- Enemy list after the spawn-timer block (lines 842-846). -/
def frameSpawnedEnemies (gs : GameState) (inp : Input) : List Enemy :=
  if enemySpawnInterval ≤ gs.world.enemySpawnTimer + inp.dt then
    spawnEnemy inp.rand gs.world.platforms gs.world.enemies
  else gs.world.enemies

/-- Enemy list entering the projectile pass: spawned enemies after the
flash decay (lines 1007-1010). -/
def frameEnemiesIn (gs : GameState) (inp : Input) : List Enemy :=
  (frameSpawnedEnemies gs inp).map (flashStep inp.dt)

/-- The projectile pass of the frame (lines 1013-1040). -/
def framePU (gs : GameState) (inp : Input) : List Projectile × List Enemy × Int :=
  projectilesUpdate gs.world.platforms inp.dt (frameProjectilesIn gs inp)
    (frameEnemiesIn gs inp)

/-- The active branch of `GameUpdate`, lines 839-1116: locomotion, fire,
projectile pass, compaction of dead projectiles and enemies, enemy AI and
the health/game-over check, assembled from the stage functions above. -/
def activeUpdate (gs : GameState) (inp : Input) : GameState :=
  let p := gs.player
  let pu := framePU gs inp
  let projs2 := pu.1.filter fun q => decide (0 < q.lifetime)
  let ens2 := pu.2.1
  let ens3 := ens2.filter fun e => decide (0 < e.health)
  let ai := enemiesAI gs.world.platforms (framePosition gs inp) p.radius inp.dt
    inp.sqrtA ens3 p.health
  { player := { p with
      position := framePosition gs inp,
      speed := frameSpeed gs inp,
      slideTimer := (frameSlide gs inp).2.2,
      isSliding := (frameSlide gs inp).1,
      sprintTimer := (frameSprint gs inp).1,
      sprintExhausted := (frameSprint gs inp).2,
      prevCrouching := inp.crouching,
      airborneSpeed := frameAirborneSpeed gs inp,
      jumpCount := (frameJump gs inp).2,
      wasOnGround := frameOnGround gs inp,
      slideQueued := (frameSlide gs inp).2.1,
      cameraYaw := p.cameraYaw - inp.mouseDX * sensitivity,
      cameraPitch := clampQ (p.cameraPitch - inp.mouseDY * sensitivity)
        (-inp.pitchLimit) inp.pitchLimit,
      velocityY := frameVelocityY gs inp,
      health := ai.2,
      enemiesDefeated := p.enemiesDefeated + ((ens2.length : Int) - (ens3.length : Int)),
      shotsFired := if inp.firePressed then p.shotsFired + 1 else p.shotsFired,
      shotsHit := p.shotsHit + pu.2.2,
      survivalTime := p.survivalTime + inp.dt },
    world := { platforms := gs.world.platforms,
               projectiles := projs2,
               enemies := ai.1,
               enemySpawnTimer :=
                 if enemySpawnInterval ≤ gs.world.enemySpawnTimer + inp.dt then 0
                 else gs.world.enemySpawnTimer + inp.dt },
    isGameOver := decide (ai.2 ≤ 0) }

/-- `GameUpdate`, lines 831-1117: while game-over, only the restart edge
(space) is accepted and re-runs `GameInit`; otherwise one active frame. -/
def GameUpdate (gs : GameState) (inp : Input) : GameState :=
  if gs.isGameOver then
    if inp.spacePressed then applyGameInit gs else gs
  else activeUpdate gs inp

/-- The initial `World` global, lines 596-605. -/
def world0 : World :=
  { platforms := [⟨⟨0, 0, 0⟩, ⟨50, 1, 50⟩⟩, ⟨⟨0, 3/2, 10⟩, ⟨2, 2, 2⟩⟩],
    projectiles := [], enemies := [], enemySpawnTimer := 0 }

/-- The initial `Player` global, lines 607-633. -/
def player0 : Player :=
  { position := ⟨0, 0, 0⟩, speed := 5, walkSpeed := 5, runSpeed := 10,
    slideSpeed := 16, crouchSpeed := 5/2, slideDuration := 1/2, slideTimer := 0,
    isSliding := false, sprintTimer := 0, sprintExhausted := false,
    prevCrouching := false, airborneSpeed := 0, jumpCount := 0,
    wasOnGround := false, slideQueued := false, cameraYaw := 0, cameraPitch := 0,
    radius := 1/2, velocityY := 0, health := 100, enemiesDefeated := 0,
    shotsFired := 0, shotsHit := 0, survivalTime := 0 }

/-- Session state at program start: the globals after the startup
`GameInit` call. -/
def initialState : GameState :=
  applyGameInit { player := player0, world := world0, isGameOver := false }

/-- Truncation of a rational toward zero, the semantics of the C cast
`(int)` applied to a non-negative value (and of `Int` division). -/
def ratTrunc (q : ℚ) : Int := q.num / (q.den : Int)

/-- Derived score, `GameDraw` line 1127. -/
def score (p : Player) : Int := p.enemiesDefeated * 100

/-- Derived accuracy, `GameDraw` line 1128: guarded division, zero when no
shots have been fired. -/
def accuracy (p : Player) : ℚ :=
  if 0 < p.shotsFired then (p.shotsHit : ℚ) / (p.shotsFired : ℚ) else 0

/-- Derived final score, `GameDraw` line 1129. -/
def finalScore (p : Player) : Int :=
  ratTrunc ((score p : ℚ) + (score p : ℚ) * accuracy p)

/-- Reachability invariant of the sprint resource: the timer stays in
`[0, maxSprintTime]` and is strictly below the cap while not exhausted. -/
def sprintInv (p : Player) : Prop :=
  0 ≤ p.sprintTimer ∧ p.sprintTimer ≤ maxSprintTime ∧
    (p.sprintExhausted = false → p.sprintTimer < maxSprintTime)

instance (p : Player) : Decidable (sprintInv p) := by
  unfold sprintInv; infer_instance

/-- Number of accepted jumps along a frame sequence. -/
def runAccepts : GameState → List Input → Nat
  | _, [] => 0
  | gs, i :: is => (if jumpAccepted gs i then 1 else 0) + runAccepts (GameUpdate gs i) is

/-- Every frame of the sequence is active (not game-over) and its ground
check comes back negative. -/
def allAirborne : GameState → List Input → Bool
  | _, [] => true
  | gs, i :: is =>
    !gs.isGameOver && !frameOnGround gs i && allAirborne (GameUpdate gs i) is

/-- A neutral input frame: small delta time, no keys, neutral oracles. -/
def inputW : Input :=
  { dt := 1/10, mouseDX := 0, mouseDY := 0, pitchLimit := 0,
    forward := ⟨0, 0, 1⟩, left := ⟨1, 0, 0⟩,
    keyW := false, keyS := false, keyD := false, keyA := false,
    running := false, crouching := false, spacePressed := false,
    firePressed := false, rand := fun _ _ => 0, sqrtA := fun _ => 0 }

/-- A game-over session with live locomotion residue (a sprint charge and a
downward velocity), as left by dying mid-play; used to examine the restart
transition. -/
def gsOverC2 : GameState :=
  { initialState with
    isGameOver := true
    player := { initialState.player with sprintTimer := 3, velocityY := -2 } }

/-- A two-frame overlap trace for the damage cooldown: the enemy sits on
the player both frames; the second frame lasts a full cooldown interval. -/
def trC9 : List (Vector3 × Vector3 × ℚ) :=
  [(⟨0, 0, 0⟩, ⟨0, 0, 0⟩, 0), (⟨0, 0, 0⟩, ⟨0, 0, 0⟩, 2)]

-- ---------------------------------------------------------------------------
-- Helper lemmas
-- ---------------------------------------------------------------------------

theorem GameUpdate_active (gs : GameState) (inp : Input) (h : gs.isGameOver = false) :
    GameUpdate gs inp = activeUpdate gs inp := by
  simp [GameUpdate, h]

theorem GameUpdate_over_idle (gs : GameState) (inp : Input) (h1 : gs.isGameOver = true)
    (h2 : inp.spacePressed = false) : GameUpdate gs inp = gs := by
  simp [GameUpdate, h1, h2]

theorem GameUpdate_over_restart (gs : GameState) (inp : Input) (h1 : gs.isGameOver = true)
    (h2 : inp.spacePressed = true) : GameUpdate gs inp = applyGameInit gs := by
  simp [GameUpdate, h1, h2]

/-- A sub-move committed by `tryMove` is itself verified collision-free,
so `tryMove` never moves a non-colliding point into a platform. -/
theorem tryMove_safe (plats : List Platform) (r : ℚ) (pos dir : Vector3) (scale : ℚ)
    (h : isCollidingPlatform plats r pos = false) :
    isCollidingPlatform plats r (tryMove plats r pos dir scale) = false := by
  unfold tryMove
  dsimp only
  split_ifs with h1 h2 h3 <;> simp_all [Bool.not_eq_true]

-- ---------------------------------------------------------------------------
-- C10
-- ---------------------------------------------------------------------------

/-- C10: the horizontal movement resolution preserves non-collision — if the
position entering the four directional `tryMove` attempts lies strictly
inside no expanded platform bound, the position they produce still lies
strictly inside no expanded platform bound, because each attempt commits
the full candidate, the X-only displacement, or the Z-only displacement
(applied on top of an accepted X-only result) only when that sub-move is
itself verified collision-free. -/
theorem C10_move_preserves_noncollision (plats : List Platform) (r : ℚ) (pos : Vector3)
    (inp : Input) (scale : ℚ) (h : isCollidingPlatform plats r pos = false) :
    isCollidingPlatform plats r (moveHorizontal plats r pos inp scale) = false := by
  unfold moveHorizontal
  dsimp only
  have h1 : isCollidingPlatform plats r
      (if inp.keyW then tryMove plats r pos inp.forward scale else pos) = false := by
    split
    · exact tryMove_safe plats r pos inp.forward scale h
    · exact h
  have h2 : isCollidingPlatform plats r
      (if inp.keyS then tryMove plats r
        (if inp.keyW then tryMove plats r pos inp.forward scale else pos)
        inp.forward (-scale)
       else (if inp.keyW then tryMove plats r pos inp.forward scale else pos)) = false := by
    split
    · exact tryMove_safe plats r _ inp.forward (-scale) h1
    · exact h1
  have h3 : isCollidingPlatform plats r
      (if inp.keyD then tryMove plats r
        (if inp.keyS then tryMove plats r
          (if inp.keyW then tryMove plats r pos inp.forward scale else pos)
          inp.forward (-scale)
         else (if inp.keyW then tryMove plats r pos inp.forward scale else pos))
        inp.left (-scale)
       else (if inp.keyS then tryMove plats r
          (if inp.keyW then tryMove plats r pos inp.forward scale else pos)
          inp.forward (-scale)
         else (if inp.keyW then tryMove plats r pos inp.forward scale else pos))) = false := by
    split
    · exact tryMove_safe plats r _ inp.left (-scale) h2
    · exact h2
  split
  · exact tryMove_safe plats r _ inp.left scale h3
  · exact h3

/-- C10 witness: a concrete non-colliding start stays non-colliding. -/
theorem C10_witness :
    isCollidingPlatform world0.platforms (1/2) ⟨0, 1, 0⟩ = false ∧
    isCollidingPlatform world0.platforms (1/2)
      (moveHorizontal world0.platforms (1/2) ⟨0, 1, 0⟩
        { inputW with keyW := true, keyA := true } 1) = false :=
  ⟨by with_unfolding_all rfl,
   C10_move_preserves_noncollision world0.platforms (1/2) ⟨0, 1, 0⟩
     { inputW with keyW := true, keyA := true } 1 (by with_unfolding_all rfl)⟩

-- ---------------------------------------------------------------------------
-- C4
-- ---------------------------------------------------------------------------

theorem active_speed (gs : GameState) (inp : Input) :
    (activeUpdate gs inp).player.speed = frameSpeed gs inp := rfl

theorem active_airborneSpeed (gs : GameState) (inp : Input) :
    (activeUpdate gs inp).player.airborneSpeed = frameAirborneSpeed gs inp := rfl

/-- C4: on a grounded frame the speed is selected with priority
sliding, then running (run held, crouch not held, sprint not exhausted),
then crouching, then walking, and the selected value is snapshotted as the
airborne speed; on an airborne frame both the speed and the snapshot equal
the previous snapshot, independent of the current key state. -/
theorem C4_speed_selection :
    (∀ (p : Player) (running crouching : Bool),
      (p.isSliding = true → selectSpeed p running crouching = p.slideSpeed) ∧
      (p.isSliding = false → running = true → crouching = false →
        p.sprintExhausted = false → selectSpeed p running crouching = p.runSpeed) ∧
      (p.isSliding = false → crouching = true →
        selectSpeed p running crouching = p.crouchSpeed) ∧
      (p.isSliding = false → crouching = false →
        (running = false ∨ p.sprintExhausted = true) →
        selectSpeed p running crouching = p.walkSpeed)) ∧
    (∀ (gs : GameState) (inp : Input), gs.isGameOver = false →
      frameOnGround gs inp = true →
      (GameUpdate gs inp).player.speed = selectSpeed gs.player inp.running inp.crouching ∧
      (GameUpdate gs inp).player.airborneSpeed =
        selectSpeed gs.player inp.running inp.crouching) ∧
    (∀ (gs : GameState) (inp : Input), gs.isGameOver = false →
      frameOnGround gs inp = false →
      (GameUpdate gs inp).player.speed = gs.player.airborneSpeed ∧
      (GameUpdate gs inp).player.airborneSpeed = gs.player.airborneSpeed) := by
  refine ⟨fun p running crouching => ⟨?_, ?_, ?_, ?_⟩, fun gs inp hGO hG => ?_, fun gs inp hGO hG => ?_⟩
  · intro hs; simp [selectSpeed, hs]
  · intro hs hr hc he; simp [selectSpeed, hs, hr, hc, he]
  · intro hs hc; simp [selectSpeed, hs, hc]
  · intro hs hc hre
    rcases hre with hr | he
    · simp [selectSpeed, hs, hc, hr]
    · simp [selectSpeed, hs, hc, he]
  · rw [GameUpdate_active gs inp hGO]
    rw [active_speed, active_airborneSpeed]
    constructor <;> simp [frameSpeed, frameAirborneSpeed, hG]
  · rw [GameUpdate_active gs inp hGO]
    rw [active_speed, active_airborneSpeed]
    constructor <;> simp [frameSpeed, frameAirborneSpeed, hG]

/-- C4 witness: grounded frame of the initial state with no input selects
the walk speed and snapshots it. -/
theorem C4_witness :
    frameOnGround initialState inputW = true ∧
    (GameUpdate initialState inputW).player.speed =
      selectSpeed initialState.player false false ∧
    (GameUpdate initialState inputW).player.airborneSpeed =
      selectSpeed initialState.player false false := by
  have h := C4_speed_selection.2.1 initialState inputW rfl (by with_unfolding_all rfl)
  exact ⟨by with_unfolding_all rfl, h.1, h.2⟩

-- ---------------------------------------------------------------------------
-- C5
-- ---------------------------------------------------------------------------

theorem active_sprintTimer (gs : GameState) (inp : Input) :
    (activeUpdate gs inp).player.sprintTimer = (frameSprint gs inp).1 := rfl

theorem active_sprintExhausted (gs : GameState) (inp : Input) :
    (activeUpdate gs inp).player.sprintExhausted = (frameSprint gs inp).2 := rfl

/-- `GameInit` leaves every locomotion field of the player untouched. -/
theorem applyGameInit_preserved (gs : GameState) :
    (applyGameInit gs).player.speed = gs.player.speed ∧
    (applyGameInit gs).player.slideTimer = gs.player.slideTimer ∧
    (applyGameInit gs).player.isSliding = gs.player.isSliding ∧
    (applyGameInit gs).player.sprintTimer = gs.player.sprintTimer ∧
    (applyGameInit gs).player.sprintExhausted = gs.player.sprintExhausted ∧
    (applyGameInit gs).player.prevCrouching = gs.player.prevCrouching ∧
    (applyGameInit gs).player.airborneSpeed = gs.player.airborneSpeed ∧
    (applyGameInit gs).player.jumpCount = gs.player.jumpCount ∧
    (applyGameInit gs).player.wasOnGround = gs.player.wasOnGround ∧
    (applyGameInit gs).player.slideQueued = gs.player.slideQueued ∧
    (applyGameInit gs).player.velocityY = gs.player.velocityY := by
  cases h : gs.world.platforms <;> simp [applyGameInit, h]

theorem sprintStep_inv (running : Bool) (dt t : ℚ) (ex : Bool)
    (h0 : 0 ≤ t) (h1 : t ≤ maxSprintTime) (h2 : ex = false → t < maxSprintTime)
    (hdt : 0 ≤ dt) :
    0 ≤ (sprintStep running dt t ex).1 ∧
    (sprintStep running dt t ex).1 ≤ maxSprintTime ∧
    ((sprintStep running dt t ex).2 = false →
      (sprintStep running dt t ex).1 < maxSprintTime) := by
  unfold sprintStep
  have hmax : (0 : ℚ) < maxSprintTime := by norm_num [maxSprintTime]
  split_ifs with hb hc <;> dsimp only
  · exact ⟨le_of_lt hmax, le_refl _, by simp⟩
  · have hexf : ex = false := by
      simp only [Bool.and_eq_true, Bool.not_eq_true'] at hb
      exact hb.2
    have hlt : t < maxSprintTime := h2 hexf
    push_neg at hc
    exact ⟨by linarith, le_of_lt hc, fun _ => hc⟩
  · split_ifs with h3 h4 h4
    · exact ⟨le_refl 0, le_of_lt hmax, fun _ => hmax⟩
    · exact ⟨le_refl 0, le_of_lt hmax, fun _ => hmax⟩
    · push_neg at h3
      have ht0 : t - dt * 2 = 0 := le_antisymm h4 h3
      rw [ht0]
      exact ⟨le_refl 0, le_of_lt hmax, fun _ => hmax⟩
    · push_neg at h3 h4
      refine ⟨h3, by linarith, fun hf => ?_⟩
      have hlt : t < maxSprintTime := h2 hf
      linarith

theorem sprintStep_accum (dt t : ℚ) (hdt : 0 < dt) (hlt : t < maxSprintTime) :
    (sprintStep true dt t false).1 = min (t + dt) maxSprintTime ∧
    t < (sprintStep true dt t false).1 ∧
    (sprintStep true dt t false).2 = decide (maxSprintTime ≤ t + dt) := by
  unfold sprintStep
  rw [show (true && !false) = true from rfl, if_pos rfl]
  split_ifs with hb <;> dsimp only
  · exact ⟨(min_eq_right hb).symm, hlt, by simp [hb]⟩
  · push_neg at hb
    exact ⟨(min_eq_left (le_of_lt hb)).symm, by linarith, by simp [hb.not_le]⟩

theorem sprintStep_decay (running : Bool) (dt t : ℚ) (ex : Bool)
    (h : running = false ∨ ex = true) (hdt : 0 < dt) :
    (sprintStep running dt t ex).1 = max 0 (t - dt * 2) ∧
    (0 < t → (sprintStep running dt t ex).1 < t) ∧
    (ex = true → ((sprintStep running dt t ex).2 = false ↔
      (sprintStep running dt t ex).1 = 0)) := by
  unfold sprintStep
  have hcond : (running && !ex) = false := by
    rcases h with h | h <;> simp [h]
  rw [hcond]
  simp only [Bool.false_eq_true, if_false]
  refine ⟨?_, fun ht => ?_, fun hex => ?_⟩
  · split_ifs with h1 <;> [exact (max_eq_left (by linarith)).symm;
      exact (max_eq_right (by linarith)).symm]
  · split_ifs with h1 <;> linarith
  · subst hex
    split_ifs with h1 h2 h2 <;> simp_all <;> linarith

/-- C5: while the run key is held and sprint is not exhausted the sprint
timer strictly increases and is capped at `maxSprintTime`, at which point
the exhausted flag is set; otherwise the timer decays at twice the rate,
clamped at zero, and a set exhausted flag clears exactly when the timer
reaches zero; the timer always stays within `[0, maxSprintTime]` (stated
as an invariant preserved by every frame and satisfied initially). -/
theorem C5_sprint_resource :
    (∀ (gs : GameState) (inp : Input), sprintInv gs.player → 0 ≤ inp.dt →
      sprintInv (GameUpdate gs inp).player) ∧
    (∀ (gs : GameState) (inp : Input), gs.isGameOver = false →
      sprintInv gs.player → 0 < inp.dt → inp.running = true →
      gs.player.sprintExhausted = false →
      (GameUpdate gs inp).player.sprintTimer =
        min (gs.player.sprintTimer + inp.dt) maxSprintTime ∧
      gs.player.sprintTimer < (GameUpdate gs inp).player.sprintTimer ∧
      (GameUpdate gs inp).player.sprintExhausted =
        decide (maxSprintTime ≤ gs.player.sprintTimer + inp.dt)) ∧
    (∀ (gs : GameState) (inp : Input), gs.isGameOver = false → 0 < inp.dt →
      (inp.running = false ∨ gs.player.sprintExhausted = true) →
      (GameUpdate gs inp).player.sprintTimer =
        max 0 (gs.player.sprintTimer - inp.dt * 2) ∧
      (0 < gs.player.sprintTimer →
        (GameUpdate gs inp).player.sprintTimer < gs.player.sprintTimer) ∧
      (gs.player.sprintExhausted = true →
        ((GameUpdate gs inp).player.sprintExhausted = false ↔
         (GameUpdate gs inp).player.sprintTimer = 0))) ∧
    sprintInv initialState.player := by
  refine ⟨fun gs inp hinv hdt => ?_, fun gs inp hGO hinv hdt hrun hex => ?_,
          fun gs inp hGO hdt hcase => ?_, ?_⟩
  · obtain ⟨h0, h1, h2⟩ := hinv
    cases hgo : gs.isGameOver with
    | false =>
      rw [GameUpdate_active gs inp hgo]
      have hs := sprintStep_inv inp.running inp.dt gs.player.sprintTimer
        gs.player.sprintExhausted h0 h1 h2 hdt
      exact ⟨hs.1, hs.2.1, hs.2.2⟩
    | true =>
      cases hsp : inp.spacePressed with
      | false => rw [GameUpdate_over_idle gs inp hgo hsp]; exact ⟨h0, h1, h2⟩
      | true =>
        rw [GameUpdate_over_restart gs inp hgo hsp]
        have hp := applyGameInit_preserved gs
        exact ⟨hp.2.2.2.1 ▸ h0, hp.2.2.2.1 ▸ h1,
          fun hf => hp.2.2.2.1 ▸ h2 (hp.2.2.2.2.1 ▸ hf)⟩
  · rw [GameUpdate_active gs inp hGO, active_sprintTimer, active_sprintExhausted]
    unfold frameSprint
    rw [hrun, hex]
    exact sprintStep_accum inp.dt gs.player.sprintTimer hdt (hinv.2.2 hex)
  · rw [GameUpdate_active gs inp hGO, active_sprintTimer, active_sprintExhausted]
    unfold frameSprint
    exact sprintStep_decay inp.running inp.dt gs.player.sprintTimer
      gs.player.sprintExhausted hcase hdt
  · refine ⟨le_refl 0, by norm_num [initialState, applyGameInit, player0, world0, maxSprintTime], ?_⟩
    intro
    show (0 : ℚ) < maxSprintTime
    norm_num [maxSprintTime]

/-- C5 witness: one running frame from the initial state strictly increases
the sprint timer. -/
theorem C5_witness :
    sprintInv initialState.player ∧
    initialState.player.sprintTimer <
      (GameUpdate initialState { inputW with running := true }).player.sprintTimer := by
  have h := C5_sprint_resource
  have hinv : sprintInv initialState.player := h.2.2.2
  exact ⟨hinv, (h.2.1 initialState { inputW with running := true } rfl hinv
    (by norm_num [inputW]) rfl rfl).2.1⟩

-- ---------------------------------------------------------------------------
-- C7
-- ---------------------------------------------------------------------------

theorem active_isSliding (gs : GameState) (inp : Input) :
    (activeUpdate gs inp).player.isSliding = (frameSlide gs inp).1 := rfl

theorem active_slideQueued (gs : GameState) (inp : Input) :
    (activeUpdate gs inp).player.slideQueued = (frameSlide gs inp).2.1 := rfl

theorem active_slideTimer (gs : GameState) (inp : Input) :
    (activeUpdate gs inp).player.slideTimer = (frameSlide gs inp).2.2 := rfl

/-- On a slide-start frame, the per-frame slide update immediately
decrements the freshly set timer. -/
theorem slideStep_start (t D dt : ℚ) :
    slideStep true true false true false false t D dt =
      (decide (0 < D - dt), true, D - dt) := by
  unfold slideStep
  by_cases h : D - dt ≤ 0
  · simp [h, not_lt.mpr h]
  · simp [h, not_le.mp h]

/-- While crouch stays held, a set queued flag survives the frame. -/
theorem slideStep_queued_persists (running prevCrouching onGround isSliding : Bool)
    (slideTimer slideDuration dt : ℚ) :
    (slideStep running true prevCrouching onGround isSliding true
      slideTimer slideDuration dt).2.1 = true := by
  unfold slideStep
  simp

/-- Once crouch is released, the queued flag clears. -/
theorem slideStep_queued_clears (running prevCrouching onGround isSliding slideQueued : Bool)
    (slideTimer slideDuration dt : ℚ) :
    (slideStep running false prevCrouching onGround isSliding slideQueued
      slideTimer slideDuration dt).2.1 = false := by
  unfold slideStep
  simp

/-- C7 (amended): when the run key is held, crouch transitions to held,
the player is not sliding, is grounded and no slide is queued, the frame
starts a slide and marks it queued; the slide timer is set to the slide
duration and then decremented by `dt` by the same frame's slide update, so
after the frame it equals `slideDuration - dt` (and sliding persists iff
that value is positive). The queued flag, once set, survives every active
frame on which crouch remains held and clears exactly on a frame where
crouch is released. -/
theorem C7_slide_start :
    (∀ (gs : GameState) (inp : Input), gs.isGameOver = false →
      inp.running = true → inp.crouching = true →
      gs.player.prevCrouching = false → gs.player.isSliding = false →
      gs.player.slideQueued = false → frameOnGround gs inp = true →
      (GameUpdate gs inp).player.slideTimer = gs.player.slideDuration - inp.dt ∧
      (GameUpdate gs inp).player.isSliding =
        decide (0 < gs.player.slideDuration - inp.dt) ∧
      (GameUpdate gs inp).player.slideQueued = true) ∧
    (∀ (gs : GameState) (inp : Input), gs.isGameOver = false →
      inp.crouching = true → gs.player.slideQueued = true →
      (GameUpdate gs inp).player.slideQueued = true) ∧
    (∀ (gs : GameState) (inp : Input), gs.isGameOver = false →
      inp.crouching = false →
      (GameUpdate gs inp).player.slideQueued = false) := by
  refine ⟨fun gs inp hGO hr hc hpc hs hq hg => ?_, fun gs inp hGO hc hq => ?_,
    fun gs inp hGO hc => ?_⟩
  · rw [GameUpdate_active gs inp hGO]
    rw [active_slideTimer, active_isSliding, active_slideQueued]
    unfold frameSlide
    rw [hr, hc, hpc, hs, hq, hg, slideStep_start]
    exact ⟨rfl, rfl, rfl⟩
  · rw [GameUpdate_active gs inp hGO, active_slideQueued]
    unfold frameSlide
    rw [hc, hq]
    exact slideStep_queued_persists inp.running gs.player.prevCrouching
      (frameOnGround gs inp) gs.player.isSliding gs.player.slideTimer
      gs.player.slideDuration inp.dt
  · rw [GameUpdate_active gs inp hGO, active_slideQueued]
    unfold frameSlide
    rw [hc]
    exact slideStep_queued_clears inp.running gs.player.prevCrouching
      (frameOnGround gs inp) gs.player.isSliding gs.player.slideQueued
      gs.player.slideTimer gs.player.slideDuration inp.dt

/-- C7 witness: concrete slide start from the initial state; holding crouch
one more frame keeps the queued flag, and releasing it on the frame after
that clears the flag. -/
theorem C7_witness :
    (GameUpdate initialState
      { inputW with running := true, crouching := true }).player.slideTimer =
      initialState.player.slideDuration - (1/10 : ℚ) ∧
    (GameUpdate initialState
      { inputW with running := true, crouching := true }).player.slideQueued = true ∧
    (GameUpdate (GameUpdate initialState { inputW with running := true, crouching := true })
      { inputW with crouching := true }).player.slideQueued = true ∧
    (GameUpdate (GameUpdate (GameUpdate initialState
        { inputW with running := true, crouching := true })
        { inputW with crouching := true })
      inputW).player.slideQueued = false := by
  have h := C7_slide_start
  have h1 := h.1 initialState { inputW with running := true, crouching := true }
    rfl rfl rfl rfl rfl rfl (by with_unfolding_all rfl)
  have h2 := h.2.1 (GameUpdate initialState { inputW with running := true, crouching := true })
    { inputW with crouching := true } (by with_unfolding_all rfl) rfl h1.2.2
  have h3 := h.2.2 (GameUpdate (GameUpdate initialState
      { inputW with running := true, crouching := true })
      { inputW with crouching := true })
    inputW (by with_unfolding_all rfl) rfl
  exact ⟨h1.1, h1.2.2, h2, h3⟩

/-- C7 counterexample to the claim as stated: on a concrete slide-start
frame (initial state, run held, crouch pressed, grounded, `dt = 1/10`) the
post-frame slide timer is `2/5`, not the configured slide duration `1/2`. -/
theorem C7_counterexample :
    initialState.isGameOver = false ∧
    initialState.player.prevCrouching = false ∧
    initialState.player.isSliding = false ∧
    initialState.player.slideQueued = false ∧
    frameOnGround initialState { inputW with running := true, crouching := true } = true ∧
    (GameUpdate initialState
      { inputW with running := true, crouching := true }).player.isSliding = true ∧
    (GameUpdate initialState
      { inputW with running := true, crouching := true }).player.slideTimer ≠
      initialState.player.slideDuration := by
  refine ⟨rfl, rfl, rfl, rfl, by with_unfolding_all rfl, by with_unfolding_all rfl, ?_⟩
  have h1 : (GameUpdate initialState
      { inputW with running := true, crouching := true }).player.slideTimer = 2/5 := by
    with_unfolding_all rfl
  have h2 : initialState.player.slideDuration = 1/2 := by with_unfolding_all rfl
  rw [h1, h2]
  norm_num

-- ---------------------------------------------------------------------------
-- C2
-- ---------------------------------------------------------------------------

/-- C2 (amended): the game-over flag is set exactly on the frame the
player's post-frame health is at or below zero; while game-over holds, a
frame without the restart edge changes nothing at all, and a frame with the
restart edge re-runs `GameInit`, which reinitializes the player position,
the camera angles, health, the shot and defeat counters, the survival time,
the world's projectiles, enemies and spawn timer, and clears the game-over
flag — while the locomotion state (speed, slide and sprint timers and
flags, airborne snapshot, jump count, vertical velocity, previous-crouch
and was-on-ground flags) persists across the restart. -/
theorem C2_game_over_restart :
    (∀ (gs : GameState) (inp : Input), gs.isGameOver = false →
      (GameUpdate gs inp).isGameOver = decide ((GameUpdate gs inp).player.health ≤ 0)) ∧
    (∀ (gs : GameState) (inp : Input), gs.isGameOver = true →
      inp.spacePressed = false → GameUpdate gs inp = gs) ∧
    (∀ (gs : GameState) (inp : Input), gs.isGameOver = true →
      inp.spacePressed = true → GameUpdate gs inp = applyGameInit gs) ∧
    (∀ gs : GameState,
      (applyGameInit gs).player.health = 100 ∧
      (applyGameInit gs).player.shotsFired = 0 ∧
      (applyGameInit gs).player.shotsHit = 0 ∧
      (applyGameInit gs).player.enemiesDefeated = 0 ∧
      (applyGameInit gs).player.survivalTime = 0 ∧
      (applyGameInit gs).player.cameraYaw = 0 ∧
      (applyGameInit gs).player.cameraPitch = 0 ∧
      (applyGameInit gs).world.projectiles = [] ∧
      (applyGameInit gs).world.enemies = [] ∧
      (applyGameInit gs).world.enemySpawnTimer = 0 ∧
      (applyGameInit gs).world.platforms = gs.world.platforms ∧
      (applyGameInit gs).isGameOver = false) ∧
    (∀ gs : GameState,
      (applyGameInit gs).player.speed = gs.player.speed ∧
      (applyGameInit gs).player.slideTimer = gs.player.slideTimer ∧
      (applyGameInit gs).player.isSliding = gs.player.isSliding ∧
      (applyGameInit gs).player.sprintTimer = gs.player.sprintTimer ∧
      (applyGameInit gs).player.sprintExhausted = gs.player.sprintExhausted ∧
      (applyGameInit gs).player.prevCrouching = gs.player.prevCrouching ∧
      (applyGameInit gs).player.airborneSpeed = gs.player.airborneSpeed ∧
      (applyGameInit gs).player.jumpCount = gs.player.jumpCount ∧
      (applyGameInit gs).player.wasOnGround = gs.player.wasOnGround ∧
      (applyGameInit gs).player.slideQueued = gs.player.slideQueued ∧
      (applyGameInit gs).player.velocityY = gs.player.velocityY) := by
  refine ⟨fun gs inp hGO => ?_, GameUpdate_over_idle, GameUpdate_over_restart,
    fun gs => ?_, applyGameInit_preserved⟩
  · rw [GameUpdate_active gs inp hGO]
    rfl
  · exact ⟨rfl, rfl, rfl, rfl, rfl, rfl, rfl, rfl, rfl, rfl, rfl, rfl⟩

/-- C2 witness: a restart frame from a concrete game-over state resets the
session outcome fields. -/
theorem C2_witness :
    GameUpdate gsOverC2 { inputW with spacePressed := true } = applyGameInit gsOverC2 ∧
    (applyGameInit gsOverC2).player.health = 100 ∧
    (applyGameInit gsOverC2).isGameOver = false := by
  have h := C2_game_over_restart
  exact ⟨h.2.2.1 gsOverC2 { inputW with spacePressed := true } rfl rfl,
    (h.2.2.2.1 gsOverC2).1, (h.2.2.2.1 gsOverC2).2.2.2.2.2.2.2.2.2.2.2⟩

/-- C2 counterexample to the claim as stated: the restart edge from the
concrete game-over state `gsOverC2` (sprint timer 3, falling at velocity
-2, both reachable mid-play) does not return the whole session to its
starting values — the sprint timer and vertical velocity survive the
restart, while a fresh session starts both at zero. -/
theorem C2_counterexample :
    gsOverC2.isGameOver = true ∧
    (GameUpdate gsOverC2 { inputW with spacePressed := true }).player.sprintTimer = 3 ∧
    (GameUpdate gsOverC2 { inputW with spacePressed := true }).player.velocityY = -2 ∧
    initialState.player.sprintTimer = 0 ∧
    initialState.player.velocityY = 0 := by
  refine ⟨rfl, ?_, ?_, rfl, rfl⟩ <;> with_unfolding_all rfl

-- ---------------------------------------------------------------------------
-- C8
-- ---------------------------------------------------------------------------

/-- C8: score is derived, never stored (the `Player` state carries only the
counters): `score = enemiesDefeated * 100`; `accuracy` is the guarded
quotient `shotsHit / shotsFired`, defined as `0` at zero shots fired with
no division performed; `finalScore = score + score * accuracy` truncated to
int, which collapses to `score` itself when no shots were fired. -/
theorem C8_derived_score :
    (∀ p : Player, score p = p.enemiesDefeated * 100) ∧
    (∀ p : Player, p.shotsFired = 0 → accuracy p = 0 ∧ finalScore p = score p) ∧
    (∀ p : Player, 0 < p.shotsFired →
      accuracy p = (p.shotsHit : ℚ) / (p.shotsFired : ℚ)) ∧
    (∀ p : Player, finalScore p = ratTrunc ((score p : ℚ) * (1 + accuracy p))) := by
  refine ⟨fun p => rfl, fun p h => ⟨?_, ?_⟩, fun p h => ?_, fun p => ?_⟩
  · simp [accuracy, h]
  · have ha : accuracy p = 0 := by simp [accuracy, h]
    simp [finalScore, ha, ratTrunc]
  · simp [accuracy, h]
  · have hr : (score p : ℚ) + (score p : ℚ) * accuracy p =
        (score p : ℚ) * (1 + accuracy p) := by ring
    rw [finalScore, hr]

/-- C8 witness: the initial player (no shots fired) has accuracy 0 and
final score equal to the base score; a player with 2 hits out of 4 shots
has the guarded quotient as accuracy. -/
theorem C8_witness :
    accuracy player0 = 0 ∧ finalScore player0 = score player0 ∧
    accuracy { player0 with shotsFired := 4, shotsHit := 2 } =
      (({ player0 with shotsFired := 4, shotsHit := 2 } : Player).shotsHit : ℚ) /
      (({ player0 with shotsFired := 4, shotsHit := 2 } : Player).shotsFired : ℚ) := by
  have h := C8_derived_score
  exact ⟨(h.2.1 player0 rfl).1, (h.2.1 player0 rfl).2,
    h.2.2.1 { player0 with shotsFired := 4, shotsHit := 2 } (by norm_num)⟩

-- ---------------------------------------------------------------------------
-- C3
-- ---------------------------------------------------------------------------

theorem active_jumpCount (gs : GameState) (inp : Input) :
    (activeUpdate gs inp).player.jumpCount = (frameJump gs inp).2 := rfl

theorem active_velocityY (gs : GameState) (inp : Input) :
    (activeUpdate gs inp).player.velocityY = frameVelocityY gs inp := rfl

/-- Per-frame jump counter equation: landing reset, then one increment
exactly when the jump guard accepts. -/
theorem frame_jumpCount (gs : GameState) (inp : Input) (h : gs.isGameOver = false) :
    (GameUpdate gs inp).player.jumpCount =
      jumpLandReset gs inp + (if jumpAccepted gs inp then 1 else 0) := by
  rw [GameUpdate_active gs inp h, active_jumpCount]
  unfold frameJump jumpStep jumpAccepted
  split_ifs <;> dsimp only <;> omega

/-- While every frame of a sequence is active and airborne, the number of
accepted jumps is bounded by the remaining double-jump budget. -/
theorem runAccepts_bound : ∀ (is : List Input) (gs : GameState),
    allAirborne gs is = true →
    (runAccepts gs is : Int) ≤ 2 - min gs.player.jumpCount 2 := by
  intro is
  induction is with
  | nil => intro gs _; simp only [runAccepts, Nat.cast_zero]; omega
  | cons i is ih =>
    intro gs hall
    unfold allAirborne at hall
    simp only [Bool.and_eq_true, Bool.not_eq_true'] at hall
    obtain ⟨⟨hgo, hair⟩, hrest⟩ := hall
    have hreset : jumpLandReset gs i = gs.player.jumpCount := by
      unfold jumpLandReset
      rw [hair]
      simp
    have hcount : (GameUpdate gs i).player.jumpCount =
        gs.player.jumpCount + (if jumpAccepted gs i then 1 else 0) := by
      rw [frame_jumpCount gs i hgo, hreset]
    have ihx := ih (GameUpdate gs i) hrest
    rw [hcount] at ihx
    unfold runAccepts
    by_cases hacc : jumpAccepted gs i = true
    · have hlt : gs.player.jumpCount < maxJumpCount := by
        unfold jumpAccepted at hacc
        rw [hair, hreset] at hacc
        simp only [Bool.and_eq_true, Bool.false_or, decide_eq_true_eq] at hacc
        exact hacc.2
      rw [hacc] at ihx ⊢
      simp only [if_true, Nat.cast_add, Nat.cast_one] at ihx ⊢
      unfold maxJumpCount at hlt
      omega
    · have haccf : jumpAccepted gs i = false := by
        cases hv : jumpAccepted gs i
        · rfl
        · exact absurd hv hacc
      rw [haccf] at ihx ⊢
      simp only [Bool.false_eq_true, if_false, Nat.cast_add, Nat.cast_zero] at ihx ⊢
      omega

/-- C3: a jump press is accepted iff grounded or the (post-landing-reset)
jump counter is strictly below the budget of 2; on acceptance the counter
increments by one and the vertical velocity is set to the jump speed (less
this frame's gravity when airborne); the counter is reset only on the frame
where ground is detected after an airborne previous frame; consequently,
along any run of airborne frames starting with a non-negative counter, at
most 2 jumps are accepted. -/
theorem C3_jump_budget :
    (∀ (gs : GameState) (inp : Input), gs.isGameOver = false →
      (GameUpdate gs inp).player.jumpCount =
        jumpLandReset gs inp + (if jumpAccepted gs inp then 1 else 0)) ∧
    (∀ (gs : GameState) (inp : Input),
      (jumpAccepted gs inp = true ↔ (inp.spacePressed = true ∧
        (frameOnGround gs inp = true ∨ jumpLandReset gs inp < maxJumpCount)))) ∧
    (∀ (gs : GameState) (inp : Input),
      frameOnGround gs inp = false ∨ gs.player.wasOnGround = true →
      jumpLandReset gs inp = gs.player.jumpCount) ∧
    (∀ (gs : GameState) (inp : Input), gs.isGameOver = false →
      jumpAccepted gs inp = true →
      (GameUpdate gs inp).player.velocityY =
        jumpVelocity - (if frameOnGround gs inp = true then 0 else gravity * inp.dt)) ∧
    (∀ (gs : GameState) (is : List Input), allAirborne gs is = true →
      0 ≤ gs.player.jumpCount → runAccepts gs is ≤ 2) := by
  refine ⟨frame_jumpCount, fun gs inp => ?_, fun gs inp hc => ?_,
    fun gs inp hGO hacc => ?_, fun gs is hall h0 => ?_⟩
  · unfold jumpAccepted
    simp [Bool.and_eq_true, Bool.or_eq_true]
  · unfold jumpLandReset
    rcases hc with hc | hc <;> simp [hc]
  · rw [GameUpdate_active gs inp hGO, active_velocityY]
    unfold frameVelocityY
    have hj : (frameJump gs inp).1 = jumpVelocity := by
      unfold frameJump jumpStep
      unfold jumpAccepted at hacc
      simp only [hacc, if_true]
    rw [hj]
    split_ifs <;> ring
  · have hb := runAccepts_bound is gs hall
    omega

/-- C3 witness: a grounded jump from the initial state increments the
counter from its reset value, and the empty airborne run accepts no jump. -/
theorem C3_witness :
    (GameUpdate initialState { inputW with spacePressed := true }).player.jumpCount =
      jumpLandReset initialState { inputW with spacePressed := true } + 1 ∧
    runAccepts initialState [] ≤ 2 := by
  have h := C3_jump_budget
  have ha : jumpAccepted initialState { inputW with spacePressed := true } = true := by
    with_unfolding_all rfl
  have h1 := h.1 initialState { inputW with spacePressed := true } rfl
  rw [ha] at h1
  exact ⟨by rw [h1]; simp,
    h.2.2.2.2 initialState [] rfl (by norm_num [initialState, applyGameInit, player0, world0])⟩

-- ---------------------------------------------------------------------------
-- C6
-- ---------------------------------------------------------------------------

theorem active_projectiles (gs : GameState) (inp : Input) :
    (activeUpdate gs inp).world.projectiles =
      (framePU gs inp).1.filter fun q => decide (0 < q.lifetime) := rfl

/-- A live projectile's lifetime strictly decreases in its step (by `dt`,
or to zero on a hit). -/
theorem projectileStep_lifetime_lt (plats : List Platform) (dt : ℚ) (p : Projectile)
    (es : List Enemy) (hdt : 0 < dt) (hlive : 0 < p.lifetime) :
    (projectileStep plats dt p es).1.lifetime < p.lifetime := by
  unfold projectileStep
  rw [if_neg (not_le.mpr hlive)]
  dsimp only
  split_ifs with h2 h3 h4 <;> dsimp only <;> linarith

/-- Positional strict decrease across the whole projectile pass. -/
theorem projectilesUpdate_lifetime_lt (plats : List Platform) (dt : ℚ) (hdt : 0 < dt) :
    ∀ (ps : List Projectile) (es : List Enemy),
      List.Forall₂ (fun p q => 0 < p.lifetime → q.lifetime < p.lifetime) ps
        (projectilesUpdate plats dt ps es).1 := by
  intro ps
  induction ps with
  | nil => intro es; exact List.Forall₂.nil
  | cons p ps ih =>
    intro es
    unfold projectilesUpdate
    exact List.Forall₂.cons
      (fun h => projectileStep_lifetime_lt plats dt p es hdt h) (ih _)

/-- The enemy scan of one projectile touches at most one enemy: either it
leaves the list unchanged and reports no hit, or it rewrites exactly the
first enemy whose swept test passes (health - 25, flash timer set) and
leaves every other enemy unchanged. -/
theorem enemyHitScan_structure (prev pos2 : Vector3) (r : ℚ) :
    ∀ es : List Enemy,
      ((enemyHitScan prev pos2 r es).1 = es ∧ (enemyHitScan prev pos2 r es).2 = false) ∨
      (∃ l e rest, es = l ++ e :: rest ∧
        (enemyHitScan prev pos2 r es).1 =
          l ++ { e with health := e.health - 25, flashTimer := enemyFlashDuration } :: rest ∧
        (enemyHitScan prev pos2 r es).2 = true ∧
        SweptSphereVsAABB prev pos2 r e.position e.size = true ∧
        ∀ e2 ∈ l, SweptSphereVsAABB prev pos2 r e2.position e2.size = false) := by
  intro es
  induction es with
  | nil => left; exact ⟨rfl, rfl⟩
  | cons e es ih =>
    by_cases h : SweptSphereVsAABB prev pos2 r e.position e.size = true
    · right
      refine ⟨[], e, es, rfl, ?_, ?_, h, by simp⟩
      · simp [enemyHitScan, h]
      · simp [enemyHitScan, h]
    · have hf : SweptSphereVsAABB prev pos2 r e.position e.size = false := by
        cases hv : SweptSphereVsAABB prev pos2 r e.position e.size
        · rfl
        · exact absurd hv h
      have hstep1 : (enemyHitScan prev pos2 r (e :: es)).1 =
          e :: (enemyHitScan prev pos2 r es).1 := by
        simp [enemyHitScan, hf]
      have hstep2 : (enemyHitScan prev pos2 r (e :: es)).2 =
          (enemyHitScan prev pos2 r es).2 := by
        simp [enemyHitScan, hf]
      rcases ih with ⟨h1, h2⟩ | ⟨l, e1, rest, heq, hres, hhit, hsw, hall⟩
      · left
        rw [hstep1, hstep2, h1, h2]
        exact ⟨rfl, rfl⟩
      · right
        refine ⟨e :: l, e1, rest, by simp [heq], ?_, by rw [hstep2, hhit], hsw, ?_⟩
        · rw [hstep1, hres]; rfl
        · intro e2 hm
          rcases List.mem_cons.mp hm with hm | hm
          · rw [hm]; exact hf
          · exact hall e2 hm

/-- C6: every live projectile's lifetime strictly decreases on an active
frame; any projectile whose lifetime reaches zero or below during the frame
is removed by that same frame's compaction, so every projectile surviving
`GameUpdate` has positive lifetime; and one projectile's enemy scan affects
at most one enemy (the first swept hit, whose health drops by 25 and whose
flash timer is set). -/
theorem C6_projectile_lifecycle :
    (∀ (plats : List Platform) (dt : ℚ), 0 < dt →
      ∀ (ps : List Projectile) (es : List Enemy),
        List.Forall₂ (fun p q => 0 < p.lifetime → q.lifetime < p.lifetime) ps
          (projectilesUpdate plats dt ps es).1) ∧
    (∀ (gs : GameState) (inp : Input), gs.isGameOver = false →
      ∀ q ∈ (GameUpdate gs inp).world.projectiles, 0 < q.lifetime) ∧
    (∀ (prev pos2 : Vector3) (r : ℚ) (es : List Enemy),
      ((enemyHitScan prev pos2 r es).1 = es ∧ (enemyHitScan prev pos2 r es).2 = false) ∨
      (∃ l e rest, es = l ++ e :: rest ∧
        (enemyHitScan prev pos2 r es).1 =
          l ++ { e with health := e.health - 25, flashTimer := enemyFlashDuration } :: rest ∧
        (enemyHitScan prev pos2 r es).2 = true ∧
        SweptSphereVsAABB prev pos2 r e.position e.size = true ∧
        ∀ e2 ∈ l, SweptSphereVsAABB prev pos2 r e2.position e2.size = false)) := by
  refine ⟨projectilesUpdate_lifetime_lt, fun gs inp hGO q hq => ?_,
    fun prev pos2 r es => enemyHitScan_structure prev pos2 r es⟩
  rw [GameUpdate_active gs inp hGO, active_projectiles] at hq
  have := List.mem_filter.mp hq
  simpa using this.2

/-- C6 witness: a fired projectile survives its first frame with positive
lifetime, and the one-frame pass strictly decreased nothing else (the empty
scan reports no hit). -/
theorem C6_witness :
    (∀ q ∈ (GameUpdate initialState
        { inputW with firePressed := true }).world.projectiles, 0 < q.lifetime) ∧
    ((enemyHitScan ⟨0, 0, 0⟩ ⟨0, 0, 10⟩ (1/100) []).1 = [] ∧
      (enemyHitScan ⟨0, 0, 0⟩ ⟨0, 0, 10⟩ (1/100) []).2 = false) ∧
    (0 : ℚ) < 1/10 := by
  have h := C6_projectile_lifecycle
  refine ⟨h.2.1 initialState { inputW with firePressed := true } rfl, ?_, by norm_num⟩
  rcases h.2.2 ⟨0, 0, 0⟩ ⟨0, 0, 10⟩ (1/100) [] with hc | ⟨l, e, rest, heq, _⟩
  · exact hc
  · exact absurd heq (by simp)

-- ---------------------------------------------------------------------------
-- C9
-- ---------------------------------------------------------------------------

/-- Characterization of the cooldown/damage block: a damage event happens
iff the squared 3D distance is below the squared combined radius and the
cooldown, after this frame's decrement, has expired; the event clamps the
player's health at zero and resets the cooldown; a non-event leaves the
health alone and the cooldown merely decremented. -/
theorem enemyDamagePhase_char (pp : Vector3) (pr dt : ℚ) (e : Enemy) (h : Int) :
    ((enemyDamagePhase pp pr dt e h).2.2 = true ↔
      ((pp.x - e.position.x) * (pp.x - e.position.x) +
       (pp.y - e.position.y) * (pp.y - e.position.y) +
       (pp.z - e.position.z) * (pp.z - e.position.z) <
         (pr + e.size.x * (1/2)) * (pr + e.size.x * (1/2)) ∧
       (if 0 < e.damageCooldown then e.damageCooldown - dt else e.damageCooldown) ≤ 0)) ∧
    ((enemyDamagePhase pp pr dt e h).2.2 = true →
      (enemyDamagePhase pp pr dt e h).2.1 =
        (if h - damageAmount < 0 then 0 else h - damageAmount) ∧
      0 ≤ (enemyDamagePhase pp pr dt e h).2.1 ∧
      (enemyDamagePhase pp pr dt e h).1.damageCooldown = damageInterval) ∧
    ((enemyDamagePhase pp pr dt e h).2.2 = false →
      (enemyDamagePhase pp pr dt e h).2.1 = h ∧
      (enemyDamagePhase pp pr dt e h).1.damageCooldown =
        (if 0 < e.damageCooldown then e.damageCooldown - dt else e.damageCooldown)) := by
  unfold enemyDamagePhase
  dsimp only
  split_ifs with h1 h2 h3 h3 h2 h3 h3 <;> dsimp only <;> simp_all

theorem dtSum_nonneg (tr : List (Vector3 × Vector3 × ℚ))
    (h : ∀ s ∈ tr, 0 ≤ s.2.2) : 0 ≤ dtSum tr := by
  induction tr with
  | nil => simp [dtSum]
  | cons s rest ih =>
    have h1 := h s (List.mem_cons_self s rest)
    have h2 := ih fun x hx => h x (List.mem_cons_of_mem s hx)
    show 0 ≤ s.2.2 + dtSum rest
    linarith

/-- After entering a trace with cooldown `cd`, the first damage event at
index `k` needs at least `cd` of accumulated delta time. -/
theorem damageTrace_first (pr : ℚ) (sz : Vector3) :
    ∀ (tr : List (Vector3 × Vector3 × ℚ)) (cd : ℚ) (h : Int) (k : Nat),
      (∀ s ∈ tr, 0 ≤ s.2.2) →
      (damageTrace pr sz cd h tr).getD k false = true →
      cd ≤ dtSum (tr.take (k + 1)) := by
  intro tr
  induction tr with
  | nil => intro cd h k _ hev; simp [damageTrace] at hev
  | cons step rest ih =>
    intro cd h k hdts hev
    have hdt0 : 0 ≤ step.2.2 := hdts step (List.mem_cons_self step rest)
    have hdts2 : ∀ s ∈ rest, 0 ≤ s.2.2 := fun s hs => hdts s (List.mem_cons_of_mem step hs)
    have hchar := enemyDamagePhase_char step.1 pr step.2.2 ⟨step.2.1, sz, 100, 0, cd⟩ h
    cases k with
    | zero =>
      simp only [damageTrace, List.getD_cons_zero] at hev
      have hcd2 := (hchar.1.mp hev).2
      simp only [List.take_succ_cons, List.take_zero]
      show cd ≤ step.2.2 + dtSum []
      simp only [dtSum, List.foldr_nil]
      by_cases hpos : 0 < (⟨step.2.1, sz, 100, 0, cd⟩ : Enemy).damageCooldown
      · rw [if_pos hpos] at hcd2
        dsimp only at hcd2 hpos
        linarith
      · rw [if_neg hpos] at hcd2
        dsimp only at hcd2
        linarith
    | succ k =>
      simp only [damageTrace, List.getD_cons_succ] at hev
      have ihx := ih _ _ k hdts2 hev
      have hsumnn : 0 ≤ dtSum (rest.take (k + 1)) :=
        dtSum_nonneg _ fun s hs => hdts2 s (List.take_subset _ _ hs)
      simp only [List.take_succ_cons]
      show cd ≤ step.2.2 + dtSum (rest.take (k + 1))
      by_cases hev0 : (enemyDamagePhase step.1 pr step.2.2 ⟨step.2.1, sz, 100, 0, cd⟩ h).2.2 = true
      · have hcd2 := (hchar.1.mp hev0).2
        by_cases hpos : (0 : ℚ) < cd
        · rw [if_pos hpos] at hcd2
          dsimp only at hcd2
          linarith
        · push_neg at hpos
          linarith
      · have hf : (enemyDamagePhase step.1 pr step.2.2 ⟨step.2.1, sz, 100, 0, cd⟩ h).2.2 = false := by
          cases hv : (enemyDamagePhase step.1 pr step.2.2 ⟨step.2.1, sz, 100, 0, cd⟩ h).2.2
          · rfl
          · exact absurd hv hev0
        have hcdnext := (hchar.2.2 hf).2
        rw [hcdnext] at ihx
        by_cases hpos : (0 : ℚ) < cd
        · rw [if_pos hpos] at ihx
          dsimp only at ihx
          linarith
        · push_neg at hpos
          linarith

/-- Two damage events of one enemy are separated by at least a full
cooldown interval of accumulated delta time. -/
theorem damageTrace_interval (pr : ℚ) (sz : Vector3) :
    ∀ (tr : List (Vector3 × Vector3 × ℚ)) (cd : ℚ) (h : Int) (i j : Nat),
      (∀ s ∈ tr, 0 ≤ s.2.2) → i < j →
      (damageTrace pr sz cd h tr).getD i false = true →
      (damageTrace pr sz cd h tr).getD j false = true →
      damageInterval ≤ dtSum ((tr.drop (i + 1)).take (j - i)) := by
  intro tr
  induction tr with
  | nil => intro cd h i j _ _ hi _; simp [damageTrace] at hi
  | cons step rest ih =>
    intro cd h i j hdts hij hi hj
    have hdts2 : ∀ s ∈ rest, 0 ≤ s.2.2 := fun s hs => hdts s (List.mem_cons_of_mem step hs)
    have hchar := enemyDamagePhase_char step.1 pr step.2.2 ⟨step.2.1, sz, 100, 0, cd⟩ h
    cases i with
    | zero =>
      obtain ⟨j2, rfl⟩ : ∃ j2, j = j2 + 1 := ⟨j - 1, by omega⟩
      simp only [damageTrace, List.getD_cons_zero] at hi
      simp only [damageTrace, List.getD_cons_succ] at hj
      have hcd := (hchar.2.1 hi).2.2
      rw [hcd] at hj
      have hres := damageTrace_first pr sz rest damageInterval _ j2 hdts2 hj
      simpa using hres
    | succ i2 =>
      obtain ⟨j2, rfl⟩ : ∃ j2, j = j2 + 1 := ⟨j - 1, by omega⟩
      simp only [damageTrace, List.getD_cons_succ] at hi hj
      have hres := ih _ _ i2 j2 hdts2 (by omega) hi hj
      simpa using hres

/-- C9: an enemy inflicts the fixed damage amount in a frame iff its
cooldown (after this frame's decrement) has expired and the 3D distance to
the player is below the combined radius (player radius plus half the
enemy's horizontal extent; compared via the exact squared form); on a hit
the player's health is clamped at zero and the cooldown resets to the fixed
interval; consequently two damage events of one enemy are always separated
by at least `damageInterval` of accumulated frame time, whatever the
positions on the frames in between. -/
theorem C9_damage_cooldown :
    (∀ (pp : Vector3) (pr dt : ℚ) (e : Enemy) (h : Int),
      ((enemyDamagePhase pp pr dt e h).2.2 = true ↔
        ((pp.x - e.position.x) * (pp.x - e.position.x) +
         (pp.y - e.position.y) * (pp.y - e.position.y) +
         (pp.z - e.position.z) * (pp.z - e.position.z) <
           (pr + e.size.x * (1/2)) * (pr + e.size.x * (1/2)) ∧
         (if 0 < e.damageCooldown then e.damageCooldown - dt else e.damageCooldown) ≤ 0)) ∧
      ((enemyDamagePhase pp pr dt e h).2.2 = true →
        (enemyDamagePhase pp pr dt e h).2.1 =
          (if h - damageAmount < 0 then 0 else h - damageAmount) ∧
        0 ≤ (enemyDamagePhase pp pr dt e h).2.1 ∧
        (enemyDamagePhase pp pr dt e h).1.damageCooldown = damageInterval) ∧
      ((enemyDamagePhase pp pr dt e h).2.2 = false →
        (enemyDamagePhase pp pr dt e h).2.1 = h ∧
        (enemyDamagePhase pp pr dt e h).1.damageCooldown =
          (if 0 < e.damageCooldown then e.damageCooldown - dt else e.damageCooldown))) ∧
    (∀ (pr : ℚ) (sz : Vector3) (tr : List (Vector3 × Vector3 × ℚ)) (cd : ℚ)
        (h : Int) (i j : Nat),
      (∀ s ∈ tr, 0 ≤ s.2.2) → i < j →
      (damageTrace pr sz cd h tr).getD i false = true →
      (damageTrace pr sz cd h tr).getD j false = true →
      damageInterval ≤ dtSum ((tr.drop (i + 1)).take (j - i))) :=
  ⟨enemyDamagePhase_char, fun pr sz tr cd h i j => damageTrace_interval pr sz tr cd h i j⟩

/-- C9 witness: an enemy overlapping the player on two consecutive frames
damages on both only because the second frame spans the full cooldown
interval, and the accumulated time between the two events is at least the
interval. -/
theorem C9_witness :
    (damageTrace (1/2) ⟨1, 2, 1⟩ 0 100 trC9).getD 0 false = true ∧
    (damageTrace (1/2) ⟨1, 2, 1⟩ 0 100 trC9).getD 1 false = true ∧
    damageInterval ≤ dtSum ((trC9.drop 1).take 1) := by
  have h0 : (damageTrace (1/2) ⟨1, 2, 1⟩ 0 100 trC9).getD 0 false = true := by
    with_unfolding_all rfl
  have h1 : (damageTrace (1/2) ⟨1, 2, 1⟩ 0 100 trC9).getD 1 false = true := by
    with_unfolding_all rfl
  refine ⟨h0, h1, ?_⟩
  have := C9_damage_cooldown.2 (1/2) ⟨1, 2, 1⟩ trC9 0 100 0 1
    (by intro s hs
        simp only [trC9, List.mem_cons, List.mem_singleton] at hs
        rcases hs with h | h | h
        · subst h; norm_num
        · subst h; norm_num
        · exact absurd h (by simp))
    (by omega) h0 h1
  simpa using this

-- ---------------------------------------------------------------------------
-- C1
-- ---------------------------------------------------------------------------

theorem ite_swap_min (x y : ℚ) : (if y < x then y else x) = min x y := by
  split_ifs with h
  · exact (min_eq_right (le_of_lt h)).symm
  · exact (min_eq_left (not_lt.mp h)).symm

theorem ite_swap_max (x y : ℚ) : (if y < x then x else y) = max x y := by
  split_ifs with h
  · exact (max_eq_left (le_of_lt h)).symm
  · exact (max_eq_right (not_lt.mp h)).symm

/-- One axis preserves the simulation between the early-exit slab loop and
the specification's no-early-exit formulation. -/
theorem slabAxis_spec_step (s d mn mx : ℚ) (o : Option (ℚ × ℚ)) (st : Bool × ℚ × ℚ)
    (hinv : slabInv o st) : slabInv (slabAxis s d mn mx o) (specAxis s d mn mx st) := by
  rcases hinv with ⟨a, b, ho, hst, hab⟩ | ⟨ho, hne⟩
  · subst ho
    subst hst
    simp only [slabAxis, specAxis]
    by_cases hd : |d| < sweptEps
    · rw [if_pos hd, if_pos hd]
      by_cases hout : s < mn ∨ mx < s
      · rw [if_pos hout]
        right
        refine ⟨rfl, ?_⟩
        rintro ⟨hok, -⟩
        simp only [Bool.true_and, decide_eq_true_eq] at hok
        rcases hout with hout | hout <;> rcases hok with ⟨hok1, hok2⟩ <;> linarith
      · rw [if_neg hout]
        push_neg at hout
        left
        exact ⟨a, b, rfl, by simp [hout.1, hout.2], hab⟩
    · rw [if_neg hd, if_neg hd]
      rw [ite_swap_min, ite_swap_max]
      simp only [mul_one_div]
      split_ifs with hemp
      · right
        refine ⟨rfl, ?_⟩
        rintro ⟨-, hle⟩
        dsimp only at hle
        exact absurd hle (not_le.mpr hemp)
      · left
        exact ⟨_, _, rfl, rfl, not_lt.mp hemp⟩
  · subst ho
    simp only [slabAxis, specAxis]
    split_ifs with hd
    · right
      refine ⟨rfl, ?_⟩
      rintro ⟨hok, hle⟩
      dsimp only at hok hle
      simp only [Bool.and_eq_true, decide_eq_true_eq] at hok
      exact hne ⟨hok.1, hle⟩
    · right
      refine ⟨rfl, ?_⟩
      rintro ⟨hok, hle⟩
      dsimp only at hok hle
      refine hne ⟨hok, ?_⟩
      calc st.2.1 ≤ max st.2.1 (min ((mn - s) / d) ((mx - s) / d)) := le_max_left _ _
        _ ≤ min st.2.2 (max ((mn - s) / d) ((mx - s) / d)) := hle
        _ ≤ st.2.2 := min_le_left _ _

/-- The slab-method test equals the specification's interval-intersection
formulation on every input. -/
theorem swept_eq_spec (start lineEnd : Vector3) (radius : ℚ) (boxPos boxSize : Vector3) :
    SweptSphereVsAABB start lineEnd radius boxPos boxSize =
      SweptSphereSpec start lineEnd radius boxPos boxSize := by
  unfold SweptSphereVsAABB SweptSphereSpec
  dsimp only
  have base : slabInv (some ((0 : ℚ), (1 : ℚ))) (true, 0, 1) :=
    Or.inl ⟨0, 1, rfl, rfl, by norm_num⟩
  have i1 := slabAxis_spec_step start.x (lineEnd.x - start.x)
    (boxPos.x - (boxSize.x * (1/2) + radius)) (boxPos.x + (boxSize.x * (1/2) + radius))
    (some (0, 1)) (true, 0, 1) base
  have i2 := slabAxis_spec_step start.y (lineEnd.y - start.y)
    (boxPos.y - (boxSize.y * (1/2) + radius)) (boxPos.y + (boxSize.y * (1/2) + radius))
    _ _ i1
  have i3 := slabAxis_spec_step start.z (lineEnd.z - start.z)
    (boxPos.z - (boxSize.z * (1/2) + radius)) (boxPos.z + (boxSize.z * (1/2) + radius))
    _ _ i2
  rcases i3 with ⟨a, b, ho, hst, hab⟩ | ⟨ho, hne⟩
  · rw [ho, hst]
    simp [hab]
  · rw [ho]
    rcases hok : (specAxis start.z (lineEnd.z - start.z)
        (boxPos.z - (boxSize.z * (1/2) + radius)) (boxPos.z + (boxSize.z * (1/2) + radius))
        (specAxis start.y (lineEnd.y - start.y)
          (boxPos.y - (boxSize.y * (1/2) + radius)) (boxPos.y + (boxSize.y * (1/2) + radius))
          (specAxis start.x (lineEnd.x - start.x)
            (boxPos.x - (boxSize.x * (1/2) + radius)) (boxPos.x + (boxSize.x * (1/2) + radius))
            (true, 0, 1)))).1 with _ | _
    · simp [hok]
    · have hnle : ¬((specAxis start.z (lineEnd.z - start.z)
          (boxPos.z - (boxSize.z * (1/2) + radius)) (boxPos.z + (boxSize.z * (1/2) + radius))
          (specAxis start.y (lineEnd.y - start.y)
            (boxPos.y - (boxSize.y * (1/2) + radius)) (boxPos.y + (boxSize.y * (1/2) + radius))
            (specAxis start.x (lineEnd.x - start.x)
              (boxPos.x - (boxSize.x * (1/2) + radius)) (boxPos.x + (boxSize.x * (1/2) + radius))
              (true, 0, 1)))).2.1 ≤ _) := fun hle => hne ⟨hok, hle⟩
      rw [Bool.true_and, decide_eq_false hnle]
      rfl

/-- C1: `SweptSphereVsAABB` implements the slab method over the box
inflated by the radius on each axis — it agrees everywhere with the
specification's formulation (degenerate axes contribute their start-in-slab
guard, other axes intersect their entry/exit interval into a running
interval initialized to `[0,1]`, collision iff the interval is non-empty
after all three axes) — and it detects the tunneling segment from
`x = -10` to `x = +10` through the thin box of half-width `1/10` at the
origin with a radius-`1/100` sphere, both endpoints lying outside the box. -/
theorem C1_swept_slab_method :
    (∀ (start lineEnd : Vector3) (radius : ℚ) (boxPos boxSize : Vector3),
      SweptSphereVsAABB start lineEnd radius boxPos boxSize =
        SweptSphereSpec start lineEnd radius boxPos boxSize) ∧
    SweptSphereVsAABB ⟨-10, 0, 0⟩ ⟨10, 0, 0⟩ (1/100) ⟨0, 0, 0⟩ ⟨1/5, 2, 2⟩ = true ∧
    SphereVsAABB ⟨-10, 0, 0⟩ (1/100) ⟨0, 0, 0⟩ ⟨1/5, 2, 2⟩ = false ∧
    SphereVsAABB ⟨10, 0, 0⟩ (1/100) ⟨0, 0, 0⟩ ⟨1/5, 2, 2⟩ = false :=
  ⟨swept_eq_spec, by with_unfolding_all rfl, by with_unfolding_all rfl,
   by with_unfolding_all rfl⟩

end Lix
